import Mathlib

/-!
Verification of the foilVis airfoil simulation (src/APSC181liftsim.py)
against its natural-language specification.  The aerodynamic force model,
the NACA geometry generator, the particle pool, and the keyboard input
handling are embedded as Lean functions over the reals, translated
directly from the Python source.
-/

noncomputable section

namespace FoilVis

/-- math.radians: degrees to radians. -/
def radians (d : ℝ) : ℝ := d * Real.pi / 180

/-- AIR_DENSITY = 1.225 (kg/m^3). -/
def AIR_DENSITY : ℝ := 1.225

/-- AIRFOIL_LENGTH = 5.0 (chord). -/
def AIRFOIL_LENGTH : ℝ := 5.0

/-- AIRFOIL_WIDTH = 2 (span). -/
def AIRFOIL_WIDTH : ℝ := 2

/-- AIRFOIL_THICKNESS = 0.5. -/
def AIRFOIL_THICKNESS : ℝ := 0.5

/-- REFERENCE_AREA = AIRFOIL_LENGTH * AIRFOIL_WIDTH. -/
def REFERENCE_AREA : ℝ := AIRFOIL_LENGTH * AIRFOIL_WIDTH

/-- The stall decay factor computed in calculate_forces (line 485):
max(0, 1 - (abs(airfoil_angle) - 15) / 5). -/
def stall_factor (angle : ℝ) : ℝ := max 0 (1 - (|angle| - 15) / 5)

/-- The lift coefficient computed by calculate_forces (lines 481-486):
below 15 degrees the plain thin-airfoil curve, at or above 15 degrees
the same curve multiplied by the stall decay factor. -/
def LIFT_COEFFICIENT (angle : ℝ) : ℝ :=
  if |angle| < 15 then
    2.0 * Real.pi * Real.sin (radians angle) * (1 - 0.3 * Real.sin (radians angle) ^ 2)
  else
    2.0 * Real.pi * Real.sin (radians angle) * stall_factor angle *
      (1 - 0.3 * Real.sin (radians angle) ^ 2)

/-- The drag coefficient computed by calculate_forces (lines 489-494):
parasitic plus induced term, with additional unclamped stall drag
0.05 * (|angle| - 15) when |angle| > 15. -/
def DRAG_COEFFICIENT (angle : ℝ) : ℝ :=
  if |angle| > 15 then
    0.015 + LIFT_COEFFICIENT angle ^ 2 / (Real.pi * 2.5) + 0.05 * (|angle| - 15)
  else
    0.015 + LIFT_COEFFICIENT angle ^ 2 / (Real.pi * 2.5)

/-- Dynamic pressure 0.5 * AIR_DENSITY * v^2 (line 497). -/
def dynamic_pressure (v : ℝ) : ℝ := 0.5 * AIR_DENSITY * v ^ 2

/-- Lift force returned by calculate_forces (line 500). -/
def lift_force (angle v : ℝ) : ℝ :=
  LIFT_COEFFICIENT angle * dynamic_pressure v * REFERENCE_AREA

/-- Drag force returned by calculate_forces (line 501). -/
def drag_force (angle v : ℝ) : ℝ :=
  DRAG_COEFFICIENT angle * dynamic_pressure v * REFERENCE_AREA

/-! ### Geometry generator (generate_airfoil_profile, lines 175-218) -/

/-- thickness_ratio = 0.12. -/
def thickness_frac : ℝ := 0.12

/-- camber_ratio = 0.04. -/
def camber_frac : ℝ := 0.04

/-- camber_position = 0.4. -/
def camber_pos : ℝ := 0.4

/-- n_points = 20. -/
def n_points : ℕ := 20

/-- Chordwise parameter x = i / n_points for sample index i (line 182). -/
def chord_x (i : ℕ) : ℝ := (i : ℝ) / (n_points : ℝ)

/-- Mean camber line height yc (lines 185-188). -/
def yc (x : ℝ) : ℝ :=
  if x < camber_pos then
    camber_frac * (x / camber_pos ^ 2) * (2 * camber_pos - x)
  else
    camber_frac * ((1 - x) / (1 - camber_pos) ^ 2) * (1 + x - 2 * camber_pos)

/-- Thickness distribution yt (line 191). -/
def yt (x : ℝ) : ℝ :=
  thickness_frac * (0.2969 * Real.sqrt x - 0.1260 * x - 0.3516 * x ^ 2 +
    0.2843 * x ^ 3 - 0.1015 * x ^ 4)

/-- Camber line slope dyc_dx (lines 194-197). -/
def dyc_dx (x : ℝ) : ℝ :=
  if x < camber_pos then
    2 * camber_frac / camber_pos ^ 2 * (camber_pos - x)
  else
    2 * camber_frac / (1 - camber_pos) ^ 2 * (camber_pos - x)

/-- theta = atan(dyc_dx) (line 199). -/
def theta (x : ℝ) : ℝ := Real.arctan (dyc_dx x)

/-- Upper surface point for sample index i: offset along the camber-line
normal and scaled by the chord (lines 202-203, 209-210). -/
def upper_point (i : ℕ) : ℝ × ℝ :=
  ((chord_x i - yt (chord_x i) * Real.sin (theta (chord_x i)) - 0.5) * AIRFOIL_LENGTH,
   (yc (chord_x i) + yt (chord_x i) * Real.cos (theta (chord_x i))) * AIRFOIL_LENGTH)

/-- Lower surface point for sample index i (lines 205-206, 212-213). -/
def lower_point (i : ℕ) : ℝ × ℝ :=
  ((chord_x i + yt (chord_x i) * Real.sin (theta (chord_x i)) - 0.5) * AIRFOIL_LENGTH,
   (yc (chord_x i) - yt (chord_x i) * Real.cos (theta (chord_x i))) * AIRFOIL_LENGTH)

/-- The upper surface point list built by the loop over range(n_points + 1). -/
def upper_surface : List (ℝ × ℝ) := (List.range (n_points + 1)).map upper_point

/-- The lower surface point list built by the loop over range(n_points + 1). -/
def lower_surface : List (ℝ × ℝ) := (List.range (n_points + 1)).map lower_point

/-! ### Particle system (SimpleParticle, generate_particles, update_particles) -/

/-- The mutable fields of SimpleParticle (lines 86-95). -/
structure SimpleParticle where
  x : ℝ
  y : ℝ
  z : ℝ
  speed : ℝ
  lifetime : ℝ
  max_lifetime : ℝ
  color : ℝ × ℝ × ℝ × ℝ
  deflected : Bool
  deflection_strength : ℝ

/-- SimpleParticle.update (lines 97-129), parameterized by the current
airfoil angle: advect, run the one-shot deflection test while not yet
deflected, apply the deflection drift and its geometric decay, age. -/
def particle_update (angle : ℝ) (p : SimpleParticle) : SimpleParticle :=
  let p1 : SimpleParticle := { p with x := p.x + p.speed * 0.05 }
  let p2 : SimpleParticle :=
    if p1.deflected = false ∧ -2 ≤ p1.x ∧ p1.x ≤ 3 then
      let angle_rad := radians angle
      let rel_x := p1.x * Real.cos angle_rad + p1.y * Real.sin angle_rad
      let rel_y := -p1.x * Real.sin angle_rad + p1.y * Real.cos angle_rad
      if -(AIRFOIL_LENGTH / 2) ≤ rel_x ∧ rel_x ≤ AIRFOIL_LENGTH / 2 ∧
          |rel_y| ≤ AIRFOIL_THICKNESS * 2 then
        let direction : ℝ := if rel_y > 0 then -1 else 1
        let distance_factor := 1 - min 1 (|rel_y| / (AIRFOIL_THICKNESS * 2))
        let angle_factor := |Real.sin (radians angle)| * 1.5 + 0.5
        { p1 with
            deflection_strength := direction * distance_factor * angle_factor * 0.1,
            deflected := true,
            color := (1.0, 0.0, 0.7, 0.7) }
      else p1
    else p1
  let p3 : SimpleParticle :=
    if p2.deflected then
      { p2 with
          y := p2.y + p2.deflection_strength,
          deflection_strength := p2.deflection_strength * 0.9995 }
    else p2
  { p3 with lifetime := p3.lifetime - 1.0 }

/-- MAX_PARTICLES = 1000 (line 155). -/
def MAX_PARTICLES : ℕ := 1000

/-- generate_particles (lines 157-161): when the pool is below the cap,
append a batch of three freshly constructed particles (their randomized
fields are supplied as the parameter fresh). -/
def generate_particles (fresh : Fin 3 → SimpleParticle)
    (particles : List SimpleParticle) : List SimpleParticle :=
  if particles.length < MAX_PARTICLES then
    particles ++ [fresh 0, fresh 1, fresh 2]
  else particles

/-- The culling test of update_particles (line 167). -/
def particle_dead (p : SimpleParticle) : Prop :=
  p.lifetime ≤ 0 ∨ p.x > 15 ∨ |p.y| > 10 ∨ |p.z| > 10

instance (p : SimpleParticle) : Decidable (particle_dead p) := by
  unfold particle_dead
  infer_instance

/-- update_particles (lines 163-168): update every particle in a snapshot of
the pool and remove the dead ones. -/
def update_particles (angle : ℝ) (particles : List SimpleParticle) :
    List SimpleParticle :=
  (particles.map (particle_update angle)).filter
    (fun p => decide (¬ particle_dead p))

/-- One frame-loop action on the particle pool: a spawn call or an update
call. -/
inductive PoolOp where
  | spawn (fresh : Fin 3 → SimpleParticle)
  | update (angle : ℝ)

/-- Apply one pool operation. -/
def apply_pool_op (particles : List SimpleParticle) : PoolOp → List SimpleParticle
  | PoolOp.spawn fresh => generate_particles fresh particles
  | PoolOp.update angle => update_particles angle particles

/-- Run a sequence of pool operations starting from the empty pool. -/
def run_pool (ops : List PoolOp) : List SimpleParticle :=
  ops.foldl apply_pool_op []

/-- A concrete particle used to instantiate spawn sequences. -/
def particle0 : SimpleParticle :=
  ⟨0, 0, 0, 0, 200, 200, (0.5, 0.5, 0.5, 1.0), false, 0⟩

/-- A sequence of n spawn calls, each constructing copies of particle0. -/
def spawn_ops (n : ℕ) : List PoolOp :=
  List.replicate n (PoolOp.spawn (fun _ => particle0))

/-- A concrete particle that has already been deflected. -/
def particle1 : SimpleParticle :=
  ⟨0, 0, 0, 1, 100, 200, (1.0, 0.0, 0.7, 0.7), true, 0.05⟩

/-! ### Input handling (handle_events, lines 641-684) -/

/-- Increase angle of attack: min(angle + 0.5, 25.0) (line 662). -/
def increase_angle (a : ℝ) : ℝ := min (a + 0.5) 25

/-- Decrease angle of attack: max(angle - 0.5, -25.0) (line 664). -/
def decrease_angle (a : ℝ) : ℝ := max (a - 0.5) (-25)

/-- Increase flow velocity: min(v + 0.2, 30.0) (line 668). -/
def increase_velocity (v : ℝ) : ℝ := min (v + 0.2) 30

/-- Decrease flow velocity: max(v - 0.2, 2.0) (line 670). -/
def decrease_velocity (v : ℝ) : ℝ := max (v - 0.2) 2

/-- Python float modulo x % y = x - y * floor(x / y), used for yaw wrap. -/
def fmod (x y : ℝ) : ℝ := x - y * (Int.floor (x / y) : ℝ)

/-- The global simulation state mutated by handle_events. -/
structure SimState where
  airfoil_angle : ℝ
  flow_velocity : ℝ
  camera_rotation_x : ℝ
  camera_rotation_y : ℝ
  camera_distance : ℝ

/-- The keys processed by handle_events. -/
inductive ControlKey where
  | up | down | right | left | w | s | a | d | q | e | r

/-- The per-key state update of handle_events (lines 650-684). -/
def handle_key (st : SimState) : ControlKey → SimState
  | ControlKey.r =>
      { airfoil_angle := 0, flow_velocity := 10, camera_rotation_x := 30,
        camera_rotation_y := 45, camera_distance := 10 }
  | ControlKey.up => { st with airfoil_angle := increase_angle st.airfoil_angle }
  | ControlKey.down => { st with airfoil_angle := decrease_angle st.airfoil_angle }
  | ControlKey.right => { st with flow_velocity := increase_velocity st.flow_velocity }
  | ControlKey.left => { st with flow_velocity := decrease_velocity st.flow_velocity }
  | ControlKey.w =>
      { st with camera_rotation_x := min (st.camera_rotation_x + 1) 89 }
  | ControlKey.s =>
      { st with camera_rotation_x := max (st.camera_rotation_x - 1) (-89) }
  | ControlKey.a =>
      { st with camera_rotation_y := fmod (st.camera_rotation_y + 1) 360 }
  | ControlKey.d =>
      { st with camera_rotation_y := fmod (st.camera_rotation_y - 1) 360 }
  | ControlKey.q =>
      { st with camera_distance := min (st.camera_distance + 0.2) 20 }
  | ControlKey.e =>
      { st with camera_distance := max (st.camera_distance - 0.2) 3 }

/-- C1: the force computation is the pure function of (angle, velocity) given
by the spec formulas: liftForce = Cl*q*A and dragForce = Cd*q*A with
q = 0.5*1.225*v^2 and A = 5.0*2.0; Cl is the thin-airfoil curve below 15
degrees and the curve times max(0, 1-(|a|-15)/5) at or above; Cd is
0.015 + Cl^2/(pi*2.5) plus unclamped 0.05*(|a|-15) when |a| > 15; and at
a = 0, v = 10 one gets Cl = 0, Cd = 0.015, liftForce = 0 and
dragForce = 0.015*0.5*1.225*100*10. -/
theorem calculate_forces_formulas (a v : ℝ) :
    lift_force a v = LIFT_COEFFICIENT a * (0.5 * 1.225 * v ^ 2) * (5.0 * 2.0) ∧
    drag_force a v = DRAG_COEFFICIENT a * (0.5 * 1.225 * v ^ 2) * (5.0 * 2.0) ∧
    LIFT_COEFFICIENT a =
      (if |a| < 15 then
        2 * Real.pi * Real.sin (a * Real.pi / 180) *
          (1 - 0.3 * Real.sin (a * Real.pi / 180) ^ 2)
      else
        2 * Real.pi * Real.sin (a * Real.pi / 180) *
          (1 - 0.3 * Real.sin (a * Real.pi / 180) ^ 2) * max 0 (1 - (|a| - 15) / 5)) ∧
    DRAG_COEFFICIENT a =
      0.015 + LIFT_COEFFICIENT a ^ 2 / (Real.pi * 2.5) +
        (if 15 < |a| then 0.05 * (|a| - 15) else 0) ∧
    LIFT_COEFFICIENT 0 = 0 ∧
    DRAG_COEFFICIENT 0 = 0.015 ∧
    lift_force 0 10 = 0 ∧
    drag_force 0 10 = 0.015 * 0.5 * 1.225 * 100 * 10 := by
  have hrad0 : radians 0 = 0 := by simp [radians]
  have hlift0 : LIFT_COEFFICIENT 0 = 0 := by
    simp [LIFT_COEFFICIENT, hrad0, abs_zero]
  have hdrag0 : DRAG_COEFFICIENT 0 = 0.015 := by
    simp [DRAG_COEFFICIENT, hlift0, abs_zero]
  refine ⟨?_, ?_, ?_, ?_, hlift0, hdrag0, ?_, ?_⟩
  · unfold lift_force dynamic_pressure AIR_DENSITY REFERENCE_AREA AIRFOIL_LENGTH AIRFOIL_WIDTH
    ring
  · unfold drag_force dynamic_pressure AIR_DENSITY REFERENCE_AREA AIRFOIL_LENGTH AIRFOIL_WIDTH
    ring
  · unfold LIFT_COEFFICIENT stall_factor radians
    split
    · ring
    · ring
  · by_cases h : 15 < |a|
    · rw [DRAG_COEFFICIENT, if_pos h, if_pos h]
    · rw [DRAG_COEFFICIENT, if_neg h, if_neg h]
      ring
  · simp [lift_force, hlift0]
  · rw [drag_force, hdrag0]
    unfold dynamic_pressure AIR_DENSITY REFERENCE_AREA AIRFOIL_LENGTH AIRFOIL_WIDTH
    norm_num

/-- C6: the stall decay factor is monotonically non-increasing in |angle| on
[15, 20] and is exactly 0 for |angle| >= 20, hence the lift coefficient is
exactly 0 for |angle| >= 20. -/
theorem stall_factor_monotone_and_zero :
    (∀ a b : ℝ, 15 ≤ |a| → |a| ≤ |b| → |b| ≤ 20 →
      stall_factor b ≤ stall_factor a) ∧
    (∀ a : ℝ, 20 ≤ |a| → stall_factor a = 0 ∧ LIFT_COEFFICIENT a = 0) := by
  constructor
  · intro a b _ hab _
    unfold stall_factor
    apply max_le (le_max_left _ _)
    calc 1 - (|b| - 15) / 5 ≤ 1 - (|a| - 15) / 5 := by linarith
    _ ≤ max 0 (1 - (|a| - 15) / 5) := le_max_right _ _
  · intro a ha
    have hsf : stall_factor a = 0 := by
      unfold stall_factor
      apply max_eq_left
      linarith
    refine ⟨hsf, ?_⟩
    have hnot : ¬ |a| < 15 := by linarith
    rw [LIFT_COEFFICIENT, if_neg hnot, hsf]
    ring

/-- Witness for C6 at a = 16, b = 18 (monotone part) and a = 25 (zero part). -/
theorem stall_factor_monotone_and_zero_witness :
    ((15 : ℝ) ≤ |(16 : ℝ)| ∧ |(16 : ℝ)| ≤ |(18 : ℝ)| ∧ |(18 : ℝ)| ≤ 20 ∧
      stall_factor 18 ≤ stall_factor 16) ∧
    ((20 : ℝ) ≤ |(25 : ℝ)| ∧ stall_factor 25 = 0 ∧ LIFT_COEFFICIENT 25 = 0) := by
  have h1 : (15 : ℝ) ≤ |(16 : ℝ)| := by rw [abs_of_nonneg] <;> norm_num
  have h2 : |(16 : ℝ)| ≤ |(18 : ℝ)| := by rw [abs_of_nonneg, abs_of_nonneg] <;> norm_num
  have h3 : |(18 : ℝ)| ≤ (20 : ℝ) := by rw [abs_of_nonneg] <;> norm_num
  have h4 : (20 : ℝ) ≤ |(25 : ℝ)| := by rw [abs_of_nonneg] <;> norm_num
  have hz := stall_factor_monotone_and_zero.2 25 h4
  exact ⟨⟨h1, h2, h3, stall_factor_monotone_and_zero.1 16 18 h1 h2 h3⟩,
    ⟨h4, hz.1, hz.2⟩⟩

/-- C7: in the non-stall region |a| < 15 the lift coefficient is an odd
function of the angle of attack. -/
theorem lift_coefficient_odd (a : ℝ) (h : |a| < 15) :
    LIFT_COEFFICIENT (-a) = -LIFT_COEFFICIENT a := by
  have hneg : |(-a)| < 15 := by rwa [abs_neg]
  have hr : radians (-a) = -radians a := by unfold radians; ring
  rw [LIFT_COEFFICIENT, if_pos hneg, LIFT_COEFFICIENT, if_pos h, hr, Real.sin_neg]
  ring

/-- Witness for C7 at a = 10. -/
theorem lift_coefficient_odd_witness :
    |(10 : ℝ)| < 15 ∧ LIFT_COEFFICIENT (-10) = -LIFT_COEFFICIENT 10 := by
  have h : |(10 : ℝ)| < 15 := by rw [abs_of_nonneg] <;> norm_num
  exact ⟨h, lift_coefficient_odd 10 h⟩

theorem abs_lift_coefficient_le (a : ℝ) : |LIFT_COEFFICIENT a| ≤ 2 * Real.pi := by
  have hs : |Real.sin (radians a)| ≤ 1 := Real.abs_sin_le_one _
  have hg : |1 - 0.3 * Real.sin (radians a) ^ 2| ≤ 1 := by
    rw [abs_le]
    constructor <;>
      nlinarith [Real.sin_sq_le_one (radians a), sq_nonneg (Real.sin (radians a))]
  have h2 : |(2.0 : ℝ) * Real.pi| = 2 * Real.pi := by
    rw [abs_of_pos (by positivity)]
    norm_num
  unfold LIFT_COEFFICIENT
  split
  · rw [abs_mul, abs_mul, h2]
    have hsg : |Real.sin (radians a)| * |1 - 0.3 * Real.sin (radians a) ^ 2| ≤ 1 :=
      mul_le_one₀ hs (abs_nonneg _) hg
    calc 2 * Real.pi * |Real.sin (radians a)| * |1 - 0.3 * Real.sin (radians a) ^ 2|
        = 2 * Real.pi * (|Real.sin (radians a)| * |1 - 0.3 * Real.sin (radians a) ^ 2|) := by
          ring
      _ ≤ 2 * Real.pi * 1 := mul_le_mul_of_nonneg_left hsg (by positivity)
      _ = 2 * Real.pi := mul_one _
  · rename_i h
    have h15 : 15 ≤ |a| := not_lt.mp h
    have hf0 : 0 ≤ stall_factor a := le_max_left _ _
    have hf1 : stall_factor a ≤ 1 := by
      unfold stall_factor
      have hd : 0 ≤ (|a| - 15) / 5 := div_nonneg (by linarith) (by norm_num)
      apply max_le (by norm_num)
      linarith
    rw [abs_mul, abs_mul, abs_mul, h2, abs_of_nonneg hf0]
    have hsf : |Real.sin (radians a)| * stall_factor a ≤ 1 := mul_le_one₀ hs hf0 hf1
    have hsg : |Real.sin (radians a)| * stall_factor a *
        |1 - 0.3 * Real.sin (radians a) ^ 2| ≤ 1 :=
      mul_le_one₀ hsf (abs_nonneg _) hg
    calc 2 * Real.pi * |Real.sin (radians a)| * stall_factor a *
          |1 - 0.3 * Real.sin (radians a) ^ 2|
        = 2 * Real.pi * (|Real.sin (radians a)| * stall_factor a *
            |1 - 0.3 * Real.sin (radians a) ^ 2|) := by ring
      _ ≤ 2 * Real.pi * 1 := mul_le_mul_of_nonneg_left hsg (by positivity)
      _ = 2 * Real.pi := mul_one _

theorem drag_coefficient_lb (a : ℝ) : 0.015 ≤ DRAG_COEFFICIENT a := by
  have h1 : 0 ≤ LIFT_COEFFICIENT a ^ 2 / (Real.pi * 2.5) :=
    div_nonneg (sq_nonneg _) (by positivity)
  unfold DRAG_COEFFICIENT
  split
  · rename_i h
    have h2 : (0 : ℝ) ≤ 0.05 * (|a| - 15) := by nlinarith
    linarith
  · linarith

theorem drag_coefficient_ub (a : ℝ) (ha : |a| ≤ 25) :
    DRAG_COEFFICIENT a ≤ 0.015 + (2 * Real.pi) ^ 2 / (Real.pi * 2.5) + 0.5 := by
  have hl := abs_lift_coefficient_le a
  have hsq : LIFT_COEFFICIENT a ^ 2 ≤ (2 * Real.pi) ^ 2 := by
    rw [← sq_abs]
    exact pow_le_pow_left₀ (abs_nonneg _) hl 2
  have hdiv : LIFT_COEFFICIENT a ^ 2 / (Real.pi * 2.5) ≤
      (2 * Real.pi) ^ 2 / (Real.pi * 2.5) :=
    (div_le_div_iff_of_pos_right (by positivity)).mpr hsq
  unfold DRAG_COEFFICIENT
  split
  · rename_i h
    have h2 : 0.05 * (|a| - 15) ≤ 0.5 := by nlinarith
    linarith
  · linarith

/-- C8: for every angle in [-25, 25] and velocity in [2, 30] the force
computation returns finite values (witnessed by explicit bounds on all four
outputs) and the drag coefficient is at least 0.015. -/
theorem forces_finite_and_drag_lb (a v : ℝ)
    (ha1 : -25 ≤ a) (ha2 : a ≤ 25) (hv1 : 2 ≤ v) (hv2 : v ≤ 30) :
    0.015 ≤ DRAG_COEFFICIENT a ∧
    |LIFT_COEFFICIENT a| ≤ 2 * Real.pi ∧
    DRAG_COEFFICIENT a ≤ 0.015 + (2 * Real.pi) ^ 2 / (Real.pi * 2.5) + 0.5 ∧
    |lift_force a v| ≤ 2 * Real.pi * (0.5 * 1.225 * 900) * 10 ∧
    |drag_force a v| ≤
      (0.015 + (2 * Real.pi) ^ 2 / (Real.pi * 2.5) + 0.5) * (0.5 * 1.225 * 900) * 10 := by
  have habs : |a| ≤ 25 := abs_le.mpr ⟨ha1, ha2⟩
  have hq0 : 0 ≤ dynamic_pressure v := by
    unfold dynamic_pressure AIR_DENSITY
    positivity
  have hqub : dynamic_pressure v ≤ 0.5 * 1.225 * 900 := by
    unfold dynamic_pressure AIR_DENSITY
    nlinarith
  have hA : REFERENCE_AREA = 10 := by
    unfold REFERENCE_AREA AIRFOIL_LENGTH AIRFOIL_WIDTH
    norm_num
  have hdub := drag_coefficient_ub a habs
  have hdlb := drag_coefficient_lb a
  refine ⟨hdlb, abs_lift_coefficient_le a, hdub, ?_, ?_⟩
  · rw [lift_force, hA, abs_mul, abs_mul, abs_of_nonneg hq0]
    have h10 : |(10 : ℝ)| = 10 := by rw [abs_of_nonneg] <;> norm_num
    rw [h10]
    exact mul_le_mul_of_nonneg_right
      (mul_le_mul (abs_lift_coefficient_le a) hqub hq0 (by positivity)) (by norm_num)
  · rw [drag_force, hA, abs_mul, abs_mul, abs_of_nonneg hq0]
    have h10 : |(10 : ℝ)| = 10 := by rw [abs_of_nonneg] <;> norm_num
    have hd0 : 0 ≤ DRAG_COEFFICIENT a := le_trans (by norm_num) hdlb
    rw [h10, abs_of_nonneg hd0]
    have hbnd0 : (0 : ℝ) ≤ 0.015 + (2 * Real.pi) ^ 2 / (Real.pi * 2.5) + 0.5 := by
      positivity
    exact mul_le_mul_of_nonneg_right
      (mul_le_mul hdub hqub hq0 hbnd0) (by norm_num)

/-- Witness for C8 at a = 0, v = 10. -/
theorem forces_finite_and_drag_lb_witness :
    ((-25 : ℝ) ≤ 0 ∧ (0 : ℝ) ≤ 25 ∧ (2 : ℝ) ≤ 10 ∧ (10 : ℝ) ≤ 30) ∧
    (0.015 ≤ DRAG_COEFFICIENT 0 ∧
      |LIFT_COEFFICIENT 0| ≤ 2 * Real.pi ∧
      DRAG_COEFFICIENT 0 ≤ 0.015 + (2 * Real.pi) ^ 2 / (Real.pi * 2.5) + 0.5 ∧
      |lift_force 0 10| ≤ 2 * Real.pi * (0.5 * 1.225 * 900) * 10 ∧
      |drag_force 0 10| ≤
        (0.015 + (2 * Real.pi) ^ 2 / (Real.pi * 2.5) + 0.5) * (0.5 * 1.225 * 900) * 10) :=
  ⟨⟨by norm_num, by norm_num, by norm_num, by norm_num⟩,
    forces_finite_and_drag_lb 0 10 (by norm_num) (by norm_num) (by norm_num) (by norm_num)⟩

theorem chord_x_zero : chord_x 0 = 0 := by
  simp [chord_x]

theorem chord_x_n : chord_x n_points = 1 := by
  norm_num [chord_x, n_points]

theorem yt_zero : yt 0 = 0 := by
  simp [yt, Real.sqrt_zero]

theorem yt_one : yt 1 = 0.000252 := by
  rw [yt, Real.sqrt_one, thickness_frac]
  norm_num

/-- C5: the geometry generator returns two ordered point sequences of length
numSegments + 1 (21 points); the first point of both has x exactly equal to
-chordLength/2 = -2.5 and the last point of both has x within 0.01 of
+chordLength/2 = +2.5. -/
theorem airfoil_profile_shape :
    upper_surface.length = n_points + 1 ∧
    lower_surface.length = n_points + 1 ∧
    upper_surface.head? = some (upper_point 0) ∧
    lower_surface.head? = some (lower_point 0) ∧
    upper_surface.getLast? = some (upper_point n_points) ∧
    lower_surface.getLast? = some (lower_point n_points) ∧
    (upper_point 0).1 = -(AIRFOIL_LENGTH / 2) ∧
    (lower_point 0).1 = -(AIRFOIL_LENGTH / 2) ∧
    |(upper_point n_points).1 - AIRFOIL_LENGTH / 2| ≤ 1 / 100 ∧
    |(lower_point n_points).1 - AIRFOIL_LENGTH / 2| ≤ 1 / 100 := by
  have hcons : List.range (n_points + 1) = 0 :: List.map Nat.succ (List.range n_points) :=
    List.range_succ_eq_map n_points
  have hsnoc : List.range (n_points + 1) = List.range n_points ++ [n_points] :=
    List.range_succ n_points
  have habs126 : |(0.00126 : ℝ)| = 0.00126 := abs_of_pos (by norm_num)
  refine ⟨?_, ?_, ?_, ?_, ?_, ?_, ?_, ?_, ?_, ?_⟩
  · simp [upper_surface]
  · simp [lower_surface]
  · rw [upper_surface, hcons]
    simp
  · rw [lower_surface, hcons]
    simp
  · rw [upper_surface, hsnoc, List.map_append]
    simp [List.getLast?_concat]
  · rw [lower_surface, hsnoc, List.map_append]
    simp [List.getLast?_concat]
  · rw [upper_point, chord_x_zero, yt_zero, AIRFOIL_LENGTH]
    norm_num
  · rw [lower_point, chord_x_zero, yt_zero, AIRFOIL_LENGTH]
    norm_num
  · rw [upper_point, chord_x_n, yt_one, AIRFOIL_LENGTH]
    have he : ((1 : ℝ) - 0.000252 * Real.sin (theta 1) - 0.5) * 5.0 - 5.0 / 2 =
        -(0.00126 * Real.sin (theta 1)) := by ring
    rw [he, abs_neg, abs_mul, habs126]
    calc (0.00126 : ℝ) * |Real.sin (theta 1)|
        ≤ 0.00126 * 1 := mul_le_mul_of_nonneg_left (Real.abs_sin_le_one _) (by norm_num)
      _ ≤ 1 / 100 := by norm_num
  · rw [lower_point, chord_x_n, yt_one, AIRFOIL_LENGTH]
    have he : ((1 : ℝ) + 0.000252 * Real.sin (theta 1) - 0.5) * 5.0 - 5.0 / 2 =
        0.00126 * Real.sin (theta 1) := by ring
    rw [he, abs_mul, habs126]
    calc (0.00126 : ℝ) * |Real.sin (theta 1)|
        ≤ 0.00126 * 1 := mul_le_mul_of_nonneg_left (Real.abs_sin_le_one _) (by norm_num)
      _ ≤ 1 / 100 := by norm_num

/-- C9: the deflection test is evaluated only while deflected = false: for an
already-deflected particle the per-tick update is independent of the current
airfoil angle (the test is never re-evaluated), the flag stays true, and each
tick applies y += deflectionStrength and multiplies deflectionStrength by
0.9995. -/
theorem deflection_one_shot (a b : ℝ) (p : SimpleParticle) (h : p.deflected = true) :
    particle_update a p = particle_update b p ∧
    (particle_update a p).deflected = true ∧
    (particle_update a p).y = p.y + p.deflection_strength ∧
    (particle_update a p).deflection_strength = p.deflection_strength * 0.9995 := by
  unfold particle_update
  simp [h]

/-- Witness for C9: a concrete deflected particle updated at angles 0 and 7. -/
theorem deflection_one_shot_witness :
    particle1.deflected = true ∧
    (particle_update 0 particle1 = particle_update 7 particle1 ∧
      (particle_update 0 particle1).deflected = true ∧
      (particle_update 0 particle1).y = particle1.y + particle1.deflection_strength ∧
      (particle_update 0 particle1).deflection_strength =
        particle1.deflection_strength * 0.9995) :=
  ⟨rfl, deflection_one_shot 0 7 particle1 rfl⟩

theorem length_apply_pool_op_le (pool : List SimpleParticle) (op : PoolOp)
    (h : pool.length ≤ MAX_PARTICLES + 2) :
    (apply_pool_op pool op).length ≤ MAX_PARTICLES + 2 := by
  cases op with
  | spawn fresh =>
    show (generate_particles fresh pool).length ≤ MAX_PARTICLES + 2
    unfold generate_particles
    split
    · simp only [List.length_append, List.length_cons, List.length_nil]
      omega
    · exact h
  | update angle =>
    show (update_particles angle pool).length ≤ MAX_PARTICLES + 2
    unfold update_particles
    calc (List.filter _ ((pool.map (particle_update angle)))).length
        ≤ (pool.map (particle_update angle)).length := List.length_filter_le _ _
      _ = pool.length := List.length_map _ _
      _ ≤ MAX_PARTICLES + 2 := h

theorem foldl_pool_length_le : ∀ (ops : List PoolOp) (pool : List SimpleParticle),
    pool.length ≤ MAX_PARTICLES + 2 →
    (ops.foldl apply_pool_op pool).length ≤ MAX_PARTICLES + 2
  | [], _, h => h
  | op :: ops, pool, h =>
      foldl_pool_length_le ops _ (length_apply_pool_op_le pool op h)

theorem foldl_spawn_length (n : ℕ) : ∀ pool : List SimpleParticle,
    pool.length + 3 * n ≤ 1002 →
    ((List.replicate n (PoolOp.spawn fun _ => particle0)).foldl
      apply_pool_op pool).length = pool.length + 3 * n := by
  induction n with
  | zero => intro pool _; simp
  | succ n ih =>
    intro pool h
    rw [List.replicate_succ, List.foldl_cons]
    have hlt : pool.length < MAX_PARTICLES := by
      unfold MAX_PARTICLES
      omega
    have hstep : (apply_pool_op pool (PoolOp.spawn fun _ => particle0)).length =
        pool.length + 3 := by
      show (generate_particles (fun _ => particle0) pool).length = pool.length + 3
      rw [generate_particles, if_pos hlt]
      simp
    have hrest := ih (apply_pool_op pool (PoolOp.spawn fun _ => particle0))
      (by rw [hstep]; omega)
    rw [hrest, hstep]
    omega

/-- C2 counterexample: 334 spawn calls from the empty pool leave the pool at
size 1002, which exceeds the cap MAX_PARTICLES = 1000, refuting the claimed
invariant that the pool size is at most 1000. -/
theorem particle_pool_exceeds_cap :
    (run_pool (spawn_ops 334)).length = 1002 ∧ MAX_PARTICLES < 1002 := by
  constructor
  · rw [run_pool, spawn_ops, foldl_spawn_length 334 [] (by norm_num)]
    norm_num
  · norm_num [MAX_PARTICLES]

/-- C2 amended: starting from the empty pool, after any sequence of spawn and
update calls the pool size is at most 1002 = MAX_PARTICLES + 2 (the cap is
checked before appending a batch of three, so the pool can overshoot the cap
by at most two). -/
theorem particle_pool_le_cap_plus_two (ops : List PoolOp) :
    (run_pool ops).length ≤ MAX_PARTICLES + 2 :=
  foldl_pool_length_le ops [] (by simp)

/-- C10: spawn appends exactly three particles when the pool is strictly below
the cap of 1000 and none otherwise, and consequently from the empty pool the
size never exceeds 1002 under any interleaving of spawn and update calls. -/
theorem generate_particles_batch_and_bound :
    (∀ (fresh : Fin 3 → SimpleParticle) (pool : List SimpleParticle),
      pool.length < MAX_PARTICLES →
        generate_particles fresh pool = pool ++ [fresh 0, fresh 1, fresh 2]) ∧
    (∀ (fresh : Fin 3 → SimpleParticle) (pool : List SimpleParticle),
      ¬ pool.length < MAX_PARTICLES → generate_particles fresh pool = pool) ∧
    (∀ ops : List PoolOp, (run_pool ops).length ≤ MAX_PARTICLES + 2) := by
  refine ⟨?_, ?_, ?_⟩
  · intro fresh pool h
    rw [generate_particles, if_pos h]
  · intro fresh pool h
    rw [generate_particles, if_neg h]
  · intro ops
    exact foldl_pool_length_le ops [] (by simp)

/-- Witness for C10: spawning into the empty pool appends the batch of three. -/
theorem generate_particles_batch_and_bound_witness :
    ([] : List SimpleParticle).length < MAX_PARTICLES ∧
    generate_particles (fun _ => particle0) [] = [] ++ [particle0, particle0, particle0] := by
  have h : ([] : List SimpleParticle).length < MAX_PARTICLES := by
    simp [MAX_PARTICLES]
  exact ⟨h, generate_particles_batch_and_bound.1 (fun _ => particle0) [] h⟩

theorem increase_angle_iterate (n : ℕ) : ∀ x : ℝ, x ≤ 25 →
    increase_angle^[n] x = min (x + 0.5 * n) 25 := by
  induction n with
  | zero =>
    intro x hx
    rw [Function.iterate_zero_apply]
    norm_num
    exact hx
  | succ n ih =>
    intro x _
    rw [Function.iterate_succ_apply,
      ih (increase_angle x) (min_le_right _ _)]
    have hn : (0 : ℝ) ≤ (n : ℝ) := Nat.cast_nonneg n
    rcases le_or_lt (x + 0.5) 25 with h | h
    · rw [increase_angle, min_eq_left h]
      congr 1
      push_cast
      ring
    · rw [increase_angle, min_eq_right h.le,
        min_eq_right (by linarith), min_eq_right (by push_cast; linarith)]

theorem handle_key_preserves (st : SimState) (k : ControlKey)
    (h1 : -25 ≤ st.airfoil_angle) (h2 : st.airfoil_angle ≤ 25)
    (h3 : 2 ≤ st.flow_velocity) (h4 : st.flow_velocity ≤ 30) :
    -25 ≤ (handle_key st k).airfoil_angle ∧ (handle_key st k).airfoil_angle ≤ 25 ∧
      2 ≤ (handle_key st k).flow_velocity ∧ (handle_key st k).flow_velocity ≤ 30 := by
  cases k with
  | up => exact ⟨le_min (by linarith) (by norm_num), min_le_right _ _, h3, h4⟩
  | down => exact ⟨le_max_right _ _, max_le (by linarith) (by norm_num), h3, h4⟩
  | right => exact ⟨h1, h2, le_min (by linarith) (by norm_num), min_le_right _ _⟩
  | left => exact ⟨h1, h2, le_max_right _ _, max_le (by linarith) (by norm_num)⟩
  | w => exact ⟨h1, h2, h3, h4⟩
  | s => exact ⟨h1, h2, h3, h4⟩
  | a => exact ⟨h1, h2, h3, h4⟩
  | d => exact ⟨h1, h2, h3, h4⟩
  | q => exact ⟨h1, h2, h3, h4⟩
  | e => exact ⟨h1, h2, h3, h4⟩
  | r =>
    exact ⟨by norm_num [handle_key], by norm_num [handle_key],
      by norm_num [handle_key], by norm_num [handle_key]⟩

theorem foldl_handle_key_preserves : ∀ (ks : List ControlKey) (st : SimState),
    -25 ≤ st.airfoil_angle → st.airfoil_angle ≤ 25 →
    2 ≤ st.flow_velocity → st.flow_velocity ≤ 30 →
    -25 ≤ (ks.foldl handle_key st).airfoil_angle ∧
      (ks.foldl handle_key st).airfoil_angle ≤ 25 ∧
      2 ≤ (ks.foldl handle_key st).flow_velocity ∧
      (ks.foldl handle_key st).flow_velocity ≤ 30
  | [], _, h1, h2, h3, h4 => ⟨h1, h2, h3, h4⟩
  | k :: ks, st, h1, h2, h3, h4 => by
      have h := handle_key_preserves st k h1 h2 h3 h4
      exact foldl_handle_key_preserves ks (handle_key st k) h.1 h.2.1 h.2.2.1 h.2.2.2

/-- C3: each angle step moves by 0.5 and each velocity step by 0.2, clamped to
[-25, 25] and [2, 30]; starting in range, any sequence of input-handling
updates stays in range; and applying the increase-angle step 1000 times from
any in-range angle yields exactly 25. -/
theorem input_clamps_hold :
    (∀ st : SimState,
      (handle_key st ControlKey.up).airfoil_angle = min (st.airfoil_angle + 0.5) 25 ∧
      (handle_key st ControlKey.down).airfoil_angle = max (st.airfoil_angle - 0.5) (-25) ∧
      (handle_key st ControlKey.right).flow_velocity = min (st.flow_velocity + 0.2) 30 ∧
      (handle_key st ControlKey.left).flow_velocity = max (st.flow_velocity - 0.2) 2) ∧
    (∀ (ks : List ControlKey) (st : SimState),
      -25 ≤ st.airfoil_angle → st.airfoil_angle ≤ 25 →
      2 ≤ st.flow_velocity → st.flow_velocity ≤ 30 →
      -25 ≤ (ks.foldl handle_key st).airfoil_angle ∧
        (ks.foldl handle_key st).airfoil_angle ≤ 25 ∧
        2 ≤ (ks.foldl handle_key st).flow_velocity ∧
        (ks.foldl handle_key st).flow_velocity ≤ 30) ∧
    (∀ x : ℝ, -25 ≤ x → x ≤ 25 → increase_angle^[1000] x = 25) := by
  refine ⟨fun st => ⟨rfl, rfl, rfl, rfl⟩, foldl_handle_key_preserves, ?_⟩
  intro x hx1 hx2
  rw [increase_angle_iterate 1000 x hx2]
  apply min_eq_right
  push_cast
  linarith

/-- Witness for C3: 1000 increase-angle steps from angle 0 land exactly on 25. -/
theorem input_clamps_hold_witness :
    (-25 : ℝ) ≤ 0 ∧ (0 : ℝ) ≤ 25 ∧ increase_angle^[1000] (0 : ℝ) = 25 :=
  ⟨by norm_num, by norm_num, input_clamps_hold.2.2 0 (by norm_num) (by norm_num)⟩

/-- C4: from any state reached by any sequence of input keys, processing the
reset key sets angle = 0, velocity = 10, camera pitch = 30, camera yaw = 45
and camera distance = 10, each exactly. -/
theorem reset_exact (ks : List ControlKey) (st : SimState) :
    handle_key (ks.foldl handle_key st) ControlKey.r =
      { airfoil_angle := 0, flow_velocity := 10, camera_rotation_x := 30,
        camera_rotation_y := 45, camera_distance := 10 } := rfl

end FoilVis
